import Mathlib

/-!
Verification development for the mini workflow engine backend
(`backend/app`): a shallow embedding of its data model, node executors,
scheduler loop, webhook ingress and workflow store, with theorems about
the behaviours the specification describes.

Conventions of the embedding:
* Python dicts with string keys become association lists
  (`List (String × JValue)` or `List (String × α)`); assignment is
  `fieldsSet` (replace-in-place or append), lookup is `fieldsGet`.
* JSON-serializable Python values become `JValue`.
* External collaborators (the LLM provider, the HTTP transport, the JSON
  parser for request bodies, the Docker sandbox process) are parameters
  (`ExternalWorld`, oracles `Nat → Except String Nat`, `SandboxOutcome`),
  mirroring the specification, which declares them out of scope.
* Exceptions raised by Python code become `Except String`.
-/

/-- JSON-style values, the payloads flowing between nodes. -/
inductive JValue where
  | jnull
  | jbool (b : Bool)
  | jnum (n : Int)
  | jstr (s : String)
  | jarr (items : List JValue)
  | jobj (fields : List (String × JValue))
  deriving Repr

mutual

/-- Structural (deep) equality of JSON values, as Python `==` on parsed JSON. -/
def JValue.beq : JValue → JValue → Bool
  | .jnull, .jnull => true
  | .jbool a, .jbool b => a == b
  | .jnum a, .jnum b => a == b
  | .jstr a, .jstr b => a == b
  | .jarr as, .jarr bs => JValue.beqList as bs
  | .jobj as, .jobj bs => JValue.beqFields as bs
  | _, _ => false

def JValue.beqList : List JValue → List JValue → Bool
  | [], [] => true
  | a :: as, b :: bs => JValue.beq a b && JValue.beqList as bs
  | _, _ => false

def JValue.beqFields : List (String × JValue) → List (String × JValue) → Bool
  | [], [] => true
  | (k1, v1) :: as, (k2, v2) :: bs => k1 == k2 && JValue.beq v1 v2 && JValue.beqFields as bs
  | _, _ => false

end

/-- Lookup in an association list modelling a Python dict (`d.get(k)`). -/
def fieldsGet (fs : List (String × JValue)) (k : String) : Option JValue :=
  (fs.find? (fun p => p.1 == k)).map (fun p => p.2)

/-- Python dict assignment `d[k] = v`: replace the existing binding in place,
or append a new one (insertion order is preserved, as in CPython). -/
def fieldsSet (fs : List (String × JValue)) (k : String) (v : JValue) : List (String × JValue) :=
  if fs.any (fun p => p.1 == k) then
    fs.map (fun p => if p.1 == k then (k, v) else p)
  else
    fs ++ [(k, v)]

/-- Read a field that the code expects to be a string (`d.get(k)` used as `str`). -/
def stringField (fs : List (String × JValue)) (k : String) : Option String :=
  match fieldsGet fs k with
  | some (.jstr s) => some s
  | _ => none

/-- True when the value is an object carrying the given key. -/
def JValue.hasField (v : JValue) (k : String) : Bool :=
  match v with
  | .jobj fs => fs.any (fun p => p.1 == k)
  | _ => false

/-- Node of a workflow graph (`app/models/workflow.py`, class `Node`).
`position` is opaque to the core; `data` is the free-form configuration map. -/
structure Node where
  id : String
  type : String
  position : Int × Int
  data : List (String × JValue)
  deriving Repr

/-- Edge of a workflow graph (`app/models/workflow.py`, class `Edge`). -/
structure Edge where
  id : String
  source : String
  target : String
  sourceHandle : Option String
  targetHandle : Option String
  deriving Repr, DecidableEq

/-- Workflow (`app/models/workflow.py`, class `Workflow`).
`last_tested` is omitted: no claim depends on the timestamp value. -/
structure Workflow where
  id : String
  name : String
  nodes : List Node
  edges : List Edge
  is_active : Bool
  tested : Bool
  deriving Repr

/-- Pydantic equality of nodes (`old_workflow.nodes != workflow.nodes`
compares all fields of each node, including the data maps). -/
def Node.beq (a b : Node) : Bool :=
  a.id == b.id && a.type == b.type && a.position == b.position
    && JValue.beqFields a.data b.data

def nodeListBeq : List Node → List Node → Bool
  | [], [] => true
  | a :: as, b :: bs => Node.beq a b && nodeListBeq as bs
  | _, _ => false

def edgeListBeq (a b : List Edge) : Bool := a == b

/-- The in-memory workflow store `workflows_db` (a dict keyed by id). -/
def Store := List (String × Workflow)

def storeGet (db : Store) (i : String) : Option Workflow :=
  ((db : List (String × Workflow)).find? (fun p => p.1 == i)).map (fun p => p.2)

/-- Dict assignment `workflows_db[id] = wf`. -/
def storeSet (db : Store) (i : String) (w : Workflow) : Store :=
  (i, w) :: (db : List (String × Workflow)).filter (fun p => p.1 != i)

/-- Replace only the two lifecycle flags of a workflow. -/
def withFlags (wf : Workflow) (act tst : Bool) : Workflow :=
  Workflow.mk wf.id wf.name wf.nodes wf.edges act tst

/-- POST `/api/workflows` (`app/routes/workflows.py`, `save_workflow`):
when the stored version exists and its nodes or edges differ, the incoming
workflow is stored with `tested` and `is_active` cleared; when nothing in
the graph changed, the stored flags are carried over; a new id is stored
as given. -/
def save_workflow (db : Store) (wf : Workflow) : Store :=
  match storeGet db wf.id with
  | some old =>
    if !(nodeListBeq old.nodes wf.nodes) || !(edgeListBeq old.edges wf.edges) then
      storeSet db wf.id (withFlags wf false false)
    else
      storeSet db wf.id (withFlags wf old.is_active old.tested)
  | none => storeSet db wf.id wf

/-- POST `/api/workflows/import_single` (`app/routes/workflows.py`,
`import_single_workflow`): after the presence check on the id, the
submitted workflow is stored exactly as given (`workflows_db[id] = wf`),
with no comparison against the stored version and no flag reset.
The `Nat` error is the HTTP status code of the raised `HTTPException`. -/
def import_single_workflow (db : Store) (wf : Workflow) : Except Nat Store :=
  if wf.id = "" then .error 400
  else .ok (storeSet db wf.id wf)

/-- POST `/api/workflows/{id}/toggle_active` (`app/routes/workflows.py`,
`toggle_workflow_active`): 404 when unknown, 400 when activating an
untested workflow, otherwise the flag is written. -/
def toggle_workflow_active (db : Store) (i : String) (active : Bool) : Except Nat Store :=
  match storeGet db i with
  | none => .error 404
  | some wf =>
    if active && !wf.tested then .error 400
    else .ok (storeSet db i (withFlags wf active wf.tested))

/-! ## Outbound HTTP with retries (`execute_api_consumer_node`, lines 371-426) -/

/-- Retry budget per policy: `none` gives 0 retries, `simple` 3, `exponential` 5
(`max_retries` in `execute_api_consumer_node`). Any other string keeps 0. -/
def max_retries_for (policy : String) : Nat :=
  if policy == "simple" then 3
  else if policy == "exponential" then 5
  else 0

/-- Sleep before retry number `attempt + 1`, in milliseconds:
`(2 ** attempt) * 0.5` seconds for exponential backoff, else a fixed 1 s. -/
def retry_delay_ms (policy : String) (attempt : Nat) : Nat :=
  if policy == "exponential" then 500 * 2 ^ attempt else 1000

/-- Result of the request/retry loop: the successful status code if any,
the number of attempts made, the sleeps performed between attempts, and
the last transport error. -/
structure RetryOutcome where
  response : Option Nat
  attempts : Nat
  delays : List Nat
  lastError : Option String
  deriving Repr, DecidableEq

/-- The `while attempt <= max_retries` loop of `execute_api_consumer_node`.
`respond` is the HTTP transport: for each attempt index it either returns a
status code or raises a `RequestException`. The first argument of the
recursion is the remaining iteration budget (`maxRetries + 1` at entry). -/
def api_retry_go (policy : String) (respond : Nat → Except String Nat) (maxRetries : Nat) :
    Nat → Nat → List Nat → RetryOutcome
  | 0, attempt, delays => RetryOutcome.mk none attempt delays none
  | Nat.succ rem, attempt, delays =>
    match respond attempt with
    | .ok code => RetryOutcome.mk (some code) (attempt + 1) delays none
    | .error e =>
      if attempt ≥ maxRetries then RetryOutcome.mk none (attempt + 1) delays (some e)
      else
        api_retry_go policy respond maxRetries rem (attempt + 1)
          (delays ++ [retry_delay_ms policy attempt])

/-- Request phase of `execute_api_consumer_node`: run the retry loop for the
node's policy; if every attempt failed, raise
`ConnectionError("Failed to connect to API: ...")`. -/
def api_consumer_request (policy : String) (respond : Nat → Except String Nat) :
    Except String Nat × Nat × List Nat :=
  let mr := max_retries_for policy
  let o := api_retry_go policy respond mr (mr + 1) 0 []
  match o.response with
  | some c => (.ok c, o.attempts, o.delays)
  | none => (.error ("Failed to connect to API: " ++ (o.lastError.getD "")), o.attempts, o.delays)

/-! ## The code node -/

/-- In-process executor used for `code` nodes during workflow runs
(`execute_code_node`, lines 578-615). The effect of Python `exec` on the
namespace `\x7bin  put_data, result\x7d` is the oracle `execOutcome`: an exception
message, or the final value of `result` (`none` when the code never set it).
With no code, or no `result`, the input passes through; an exception becomes
`ValueError("Code execution failed: ...")`; otherwise the envelope is
`\x7bstatus: "success", output, details\x7d` — note the key is `output`, and there
is no sandbox, no temp directory and no timeout on this path. -/
def execute_code_node (code : String) (input : JValue)
    (execOutcome : Except String (Option JValue)) : Except String JValue :=
  if code == "" then .ok input
  else
    match execOutcome with
    | .error e => .error ("Code execution failed: " ++ e)
    | .ok none => .ok input
    | .ok (some v) =>
      .ok (.jobj [("status", .jstr "success"), ("output", v),
                  ("details", .jobj [("code_executed", .jstr (code.take 100))])])

/-- What the Docker sandbox subprocess did, as observed by
`test_code_node_in_docker`: the wall-clock timeout fired, or the process
completed with a return code and standard output / error. -/
inductive SandboxOutcome where
  | timeoutExpired
  | completed (returncode : Int) (stdout : Option JValue) (stderr : String)
  deriving Repr

/-- Sandbox executor reached only from POST `/node/code/test`
(`test_code_node_in_docker`, lines 617-845): requirements installation may
fail; `subprocess.TimeoutExpired` becomes a structured error naming the
timeout; a non-zero exit code or empty/non-JSON stdout become structured
errors; otherwise the JSON printed by the wrapper script is returned.
`stdout = none` models empty or unparseable standard output. -/
def test_code_node_in_docker (installFailed : Bool) (outcome : SandboxOutcome)
    (timeoutSeconds : Nat) : JValue :=
  if installFailed then
    .jobj [("status", .jstr "error"), ("error", .jstr "Failed to install requirements")]
  else
    match outcome with
    | .timeoutExpired =>
      .jobj [("status", .jstr "error"),
             ("error", .jstr ("Code execution timed out after "
                               ++ toString timeoutSeconds ++ " seconds"))]
    | .completed rc stdout stderr =>
      if rc != 0 then
        .jobj [("status", .jstr "error"), ("error", .jstr "Docker execution command failed"),
               ("details", .jstr stderr)]
      else
        match stdout with
        | none =>
          .jobj [("status", .jstr "error"),
                 ("error", .jstr "Failed to parse execution result from script")]
        | some v => v

/-- Default of the `timeout_seconds` parameter of `test_code_node_in_docker`. -/
def code_test_default_timeout : Nat := 60

/-! ## `execute_node` dispatch (`node_execution.py`, lines 47-86) -/

/-- One outbound HTTP request actually handed to the transport. -/
structure HttpRequestEffect where
  method : String
  url : String
  headers : List (String × JValue)
  deriving Repr

/-- The collaborators outside the embedding: the LLM provider, the result of
`exec` for code nodes, the HTTP transport (per attempt index), the JSON
parser applied to string-typed header fields, and the OAuth2 token endpoint
(`some token` when the token request of lines 350-365 succeeds and its JSON
carries an `access_token`, `none` when it fails or carries none). -/
structure ExternalWorld where
  llmResult : Except String String
  codeExec : Except String (Option JValue)
  httpRespond : Nat → Except String Nat
  parseJson : String → Option JValue
  oauthToken : Option String

/-- Python `str.upper()` restricted to ASCII, written over the character list
so that it reduces definitionally. -/
def pyUpper (s : String) : String := String.mk (s.data.map Char.toUpper)

/-- Header tolerance of the HTTP executors: a dict is used as is, a string is
parsed as JSON (invalid JSON degenerating to empty headers), anything else is
empty. -/
def parse_headers (world : ExternalWorld) (v : Option JValue) : List (String × JValue) :=
  match v with
  | some (.jobj fs) => fs
  | some (.jstr s) =>
    match world.parseJson s with
    | some (.jobj fs) => fs
    | _ => []
  | _ => []

/-- Render of the query-parameter dict into the URL
(`urlencode` + `?`/`&` splice in `execute_api_consumer_node`, lines 287-301).
Percent-encoding itself is an external concern; the joining logic is the code's. -/
def url_with_query (url : String) (qp : List (String × JValue)) : String :=
  if qp.isEmpty then url
  else
    let enc := String.intercalate "&" (qp.map (fun p =>
      p.1 ++ "=" ++ match p.2 with | .jstr s => s | .jnum n => toString n | _ => ""))
    if (url.toList).contains '?' then url ++ "&" ++ enc else url ++ "?" ++ enc

/-- Result of `execute_api_consumer_node`: the produced envelope or raised
error together with the transport requests made, and the node's `data` dict
as it stands after the call. The auth handling of lines 315-369 writes into
the `headers` object obtained by `node_data.get('headers', \x7b\x7d)` — when the
stored field is a dict, that object *is* `node.data["headers"]`, so the
writes mutate the node's own configuration in place, before any request is
attempted (a string-valued field is parsed into a fresh dict and its
mutation is invisible to the node). -/
structure ApiConsumerOutcome where
  result : Except String (JValue × List HttpRequestEffect)
  data : List (String × JValue)

/-- `execute_api_consumer_node` (lines 266-465): resolve method (default
GET, upper-cased), headers (a dict — aliasing `node.data["headers"]` — or a
JSON string parsed into a fresh dict; anything else degenerates to empty
headers), URL with query params; apply authentication — `api_key` in header
location writes `headers[name] = value`, `bearer` writes
`headers["Authorization"] = "Bearer " + token`, `oauth2` with a token URL
writes the fetched token the same way when one is obtained, `api_key` in
query location splices the pair into the URL, and `basic`/`none` touch
nothing; then run the retry loop and either raise the exhaustion
`ConnectionError` or return the `\x7bstatus_code, full_response, ...\x7d`
envelope. The effects list records one transport request per attempt made;
the returned `data` reflects the in-place header mutation, which happens
whether or not the request later fails. -/
def execute_api_consumer_node (world : ExternalWorld) (node : Node) (_input : JValue) :
    ApiConsumerOutcome :=
  let url0 := (stringField node.data "url").getD ""
  let method := pyUpper ((stringField node.data "method").getD "GET")
  let headersPair : List (String × JValue) × Bool :=
    match fieldsGet node.data "headers" with
    | some (.jobj fs) => (fs, true)
    | some (.jstr s) =>
      match world.parseJson s with
      | some (.jobj fs) => (fs, false)
      | _ => ([], false)
    | _ => ([], false)
  let headers0 := headersPair.1
  let aliased := headersPair.2
  let qp := match fieldsGet node.data "query_params" with
    | some (.jobj fs) => fs
    | some (.jstr s) => match world.parseJson s with
      | some (.jobj fs) => fs
      | _ => []
    | _ => []
  let url1 := url_with_query url0 qp
  let auth_type := (stringField node.data "auth_type").getD "none"
  let authRes : List (String × JValue) × Bool × String :=
    if auth_type = "api_key" then
      let keyName := (stringField node.data "api_key_name").getD "X-API-Key"
      let keyValue := (stringField node.data "api_key_value").getD ""
      let keyLocation := (stringField node.data "api_key_location").getD "header"
      if keyLocation = "header" then
        (fieldsSet headers0 keyName (.jstr keyValue), true, url1)
      else if keyLocation = "query" then
        (headers0, false,
         if (url1.toList).contains '?' then url1 ++ "&" ++ keyName ++ "=" ++ keyValue
         else url1 ++ "?" ++ keyName ++ "=" ++ keyValue)
      else (headers0, false, url1)
    else if auth_type = "bearer" then
      (fieldsSet headers0 "Authorization"
        (.jstr ("Bearer " ++ (stringField node.data "bearer_token").getD "")), true, url1)
    else if auth_type = "oauth2" then
      if (stringField node.data "oauth_token_url").getD "" ≠ "" then
        match world.oauthToken with
        | some tok =>
          (fieldsSet headers0 "Authorization" (.jstr ("Bearer " ++ tok)), true, url1)
        | none => (headers0, false, url1)
      else (headers0, false, url1)
    else (headers0, false, url1)
  let headers := authRes.1
  let headerWritten := authRes.2.1
  let url := authRes.2.2
  let newData :=
    if aliased && headerWritten then fieldsSet node.data "headers" (.jobj headers)
    else node.data
  let policy := (stringField node.data "retry_policy").getD "none"
  let r := api_consumer_request policy world.httpRespond
  let effects := (List.range r.2.1).map (fun _ => HttpRequestEffect.mk method url headers)
  let result : Except String (JValue × List HttpRequestEffect) :=
    match r.1 with
    | .error e => .error e
    | .ok code =>
      .ok (.jobj [("status_code", .jnum code),
                  ("response_summary", .jstr ""),
                  ("details", .jobj [("url_called", .jstr url), ("method", .jstr method)])],
           effects)
  ApiConsumerOutcome.mk result newData

/-- `execute_webhook_action_node` (lines 182-264). This function is defined in
`node_execution.py` but never called by `execute_node`; it is embedded to
exhibit what the dispatch would have to do for `http_action` nodes. Body
templating is elided (body absent means the input is the payload). -/
def execute_webhook_action_node (world : ExternalWorld) (node : Node) (_input : JValue) :
    Except String (JValue × List HttpRequestEffect) :=
  match stringField node.data "url" with
  | none => .error "URL is required for webhook"
  | some url =>
    let method := pyUpper ((stringField node.data "method").getD "POST")
    let headers := parse_headers world (fieldsGet node.data "headers")
    match world.httpRespond 0 with
    | .error e => .error ("Failed to send webhook to " ++ url ++ ": " ++ e)
    | .ok code =>
      .ok (.jobj [("status", .jstr "success"), ("status_code", .jnum code)],
           [HttpRequestEffect.mk method url headers])

/-- Result of `execute_node`: the produced output (or the re-raised
exception), the node after the in-place mutation of its `data` dict, and the
outbound HTTP requests performed. -/
structure NodeExecOutcome where
  result : Except String JValue
  node : Node
  effects : List HttpRequestEffect
  deriving Repr

/-- Coarse model of `execute_llm_node` (lines 88-180): a model name must be
configured; the provider call itself is the oracle. Prompt rendering and
model-config dereferencing do not affect any claim and are collapsed into
the oracle, as the specification treats the LLM call as an external
collaborator. -/
def execute_llm_node (world : ExternalWorld) (node : Node) : Except String JValue :=
  match stringField node.data "model" with
  | none => .error "Model name is required"
  | some m =>
    match world.llmResult with
    | .error e => .error ("Failed to call model " ++ m ++ ": " ++ e)
    | .ok content =>
      .ok (.jobj [("status", .jstr "success"), ("full_response", .jstr content)])

/-- `execute_node` (lines 47-86). The dispatch recognises exactly `llm`,
`code`, `api_consumer` and `model_config`; every other type — including
`http_action` and `webhook_action` — falls into the `else` branch that logs
an unknown-type warning and passes the input through unchanged.
`execute_node_step` returns the dispatched executor's result together with
the node's `data` dict as the executor left it (only `api_consumer` mutates
it, through the aliased headers dict). On success `execute_node` further
mutates the dict: `data["status"] = "completed"` and
`data["output"] = output` (lines 79-80). On an exception those two writes
do not happen and the exception is re-raised — but an executor's own
in-place mutation has already taken effect. -/
def execute_node_step (world : ExternalWorld) (node : Node) (input : JValue) :
    Except String (JValue × List HttpRequestEffect) × List (String × JValue) :=
  if node.type == "llm" then
    ((execute_llm_node world node).map (fun v => (v, [])), node.data)
  else if node.type == "code" then
    ((execute_code_node ((stringField node.data "code").getD "") input world.codeExec).map
      (fun v => (v, [])), node.data)
  else if node.type == "api_consumer" then
    let o := execute_api_consumer_node world node input
    (o.result, o.data)
  else
    (.ok (input, []), node.data)

def execute_node (world : ExternalWorld) (node : Node) (input : JValue) : NodeExecOutcome :=
  let step := execute_node_step world node input
  match step.1 with
  | .error e =>
    NodeExecOutcome.mk (.error e) (Node.mk node.id node.type node.position step.2) []
  | .ok (out, effs) =>
    NodeExecOutcome.mk (.ok out)
      (Node.mk node.id node.type node.position
        (fieldsSet (fieldsSet step.2 "status" (.jstr "completed")) "output" out))
      effs

/-! ## Test rendezvous (`workflow_service.py`, `signal_webhook_data_for_test`) -/

/-- Lookup in a string-keyed association list of strings. -/
def assocGetS (m : List (String × String)) (k : String) : Option String :=
  (m.find? (fun p => p.1 == k)).map (fun p => p.2)

/-- Shared state of the rendezvous between the webhook ingress and a paused
test run: `activeWaiters` is `active_webhooks_expecting_test_data`
(path → run id), `testEvents` is `webhook_test_events` (run id → node ids
holding an `asyncio.Event`), `eventSet` records which events have been set,
and `testData` is `webhook_test_data` flattened to `(run_id, node_id)` keys. -/
structure RendezvousState where
  activeWaiters : List (String × String)
  testEvents : List (String × List String)
  eventSet : List (String × String)
  testData : List (String × String × JValue)
  deriving Repr

/-- Observable actions of `signal_webhook_data_for_test`, in program order:
setting the waiting run's `asyncio.Event`, and deleting the path from
`active_webhooks_expecting_test_data`. -/
inductive SignalAction where
  | setEvent (runId nodeId : String)
  | removeWaiter (path : String)
  deriving Repr, DecidableEq

/-- Node-id reconciliation loop of `signal_webhook_data_for_test`
(lines 187-205): the exact id, else the first registered id equal up to
removing underscores, else — when the supplied id is purely numeric — the
first registered id ending in `_` followed by it. -/
def find_matching_node_id (registered : List String) (nodeId : String) : Option String :=
  if registered.contains nodeId then some nodeId
  else
    registered.find? (fun nd =>
      nd.replace "_" "" == nodeId.replace "_" ""
        || (nodeId.length > 0 && nodeId.toList.all Char.isDigit
              && nd.endsWith ("_" ++ nodeId)))

/-- `signal_webhook_data_for_test` (lines 176-221). Returns the new state,
the boolean result, and the trace of observable actions. The source sets the
event first (line 214) and only then deletes the path from
`active_webhooks_expecting_test_data` (lines 218-219); there is no `await`
between the two, so both happen before the waiting coroutine can resume.
`registered_events` is the `webhook_test_events[run_id]` lookup (an empty
list when the run holds no waiting events). -/
def registered_events (st : RendezvousState) (runId : String) : List String :=
  (((st.testEvents.find? (fun p => p.1 == runId))).map (fun p => p.2)).getD []

def signal_webhook_data_for_test (st : RendezvousState) (path nodeId : String)
    (data : JValue) : RendezvousState × Bool × List SignalAction :=
  match assocGetS st.activeWaiters path with
  | none => (st, false, [])
  | some runId =>
    match find_matching_node_id (registered_events st runId) nodeId with
    | none => (st, false, [])
    | some found =>
      let st1 := RendezvousState.mk
        (st.activeWaiters.filter (fun p => p.1 != path))
        st.testEvents
        (st.eventSet ++ [(runId, found)])
        (st.testData ++ [(runId, found, data)])
      (st1, true, [SignalAction.setEvent runId found, SignalAction.removeWaiter path])

/-- Predicate formalising the claim's ordering: in the action trace, a
removal of the waiter entry occurs strictly before any event is set. -/
def removal_precedes_signal (tr : List SignalAction) : Bool :=
  match tr with
  | SignalAction.removeWaiter _ :: _ => true
  | [] => true
  | _ => false

/-! ## Webhook ingress payload storage (`routes/webhooks.py`, lines 154-159) -/

/-- The entry the callback handler builds for the incoming request. -/
def webhook_payload_entry (payload : JValue) (timestamp method : String) : JValue :=
  .jobj [("payload", payload), ("timestamp", .jstr timestamp), ("method", .jstr method)]

/-- Payload storage step of `handle_webhook_callback`
(`webhook_payloads[webhook_specific_path] = \x7b"payload": ..., "timestamp": ...,
"method": ...\x7d`): a plain dict assignment under the bare path segment — it
replaces whatever was stored for the segment with this single entry. -/
def handle_webhook_callback_store (payloads : List (String × JValue)) (segment : String)
    (payload : JValue) (timestamp method : String) : List (String × JValue) :=
  fieldsSet payloads segment (webhook_payload_entry payload timestamp method)

/-- Number of payload entries held for one segment: a list stores its length,
a single entry object counts as one. -/
def stored_entry_count (v : Option JValue) : Nat :=
  match v with
  | none => 0
  | some (.jarr items) => items.length
  | some _ => 1

/-! ## Scheduler (`workflow_service.py`, `execute_workflow_logic`) -/

/-- `format_webhook_path` (`workflow_service.py`, lines 24-26). -/
def format_webhook_path (workflowId nodeId : String) : String :=
  "/api/webhooks/wh_" ++ workflowId ++ "_" ++ nodeId

/-- `nodes_dict` lookup. The dict comprehension
`\x7bnode.id: node for node in nodes\x7d` keeps the last occurrence of a
duplicated id, hence the reverse search. -/
def nodes_dict_find (wf : Workflow) (i : String) : Option Node :=
  wf.nodes.reverse.find? (fun n => n.id == i)

/-- Keys of the `adj` dict: ids of every non-`model_config` node. -/
def operational_node_ids (wf : Workflow) : List String :=
  (wf.nodes.filter (fun n => n.type != "model_config")).map (fun n => n.id)

/-- Edge admitted into `adj` (lines 289-295): both endpoints resolve in
`nodes_dict`, neither is a `model_config` node, and the source id is a key
of `adj`. -/
def operational_edge_src (wf : Workflow) (e : Edge) : Bool :=
  match nodes_dict_find wf e.source, nodes_dict_find wf e.target with
  | some s, some t =>
    s.type != "model_config" && t.type != "model_config"
      && (operational_node_ids wf).contains e.source
  | _, _ => false

/-- Membership in the `all_target_ids_in_operational_graph` set
(lines 303-306). -/
def is_target_in_operational_graph (wf : Workflow) (i : String) : Bool :=
  wf.edges.any (fun e => operational_edge_src wf e && e.target == i)

/-- `start_node_candidates` (lines 308-313), in node-declaration order. -/
def start_node_candidates (wf : Workflow) : List String :=
  (wf.nodes.filter (fun n => n.type != "model_config"
    && (!(is_target_in_operational_graph wf n.id)
        || n.type == "input" || n.type == "webhook_trigger" || n.type == "trigger"))).map
    (fun n => n.id)

/-- Node lookup as the specification reads it (ids are unique, so first
occurrence). Compared against `nodes_dict_find` in the refinement theorem. -/
def spec_find_node (wf : Workflow) (i : String) : Option Node :=
  wf.nodes.find? (fun n => n.id == i)

/-- Operational edge in the specification's words: both endpoints exist and
neither is a `model_config` node. -/
def spec_operational_edge (wf : Workflow) (e : Edge) : Bool :=
  match spec_find_node wf e.source, spec_find_node wf e.target with
  | some s, some t => s.type != "model_config" && t.type != "model_config"
  | _, _ => false

/-- The node has an incoming operational edge, in the specification's words. -/
def spec_has_incoming_operational_edge (wf : Workflow) (i : String) : Bool :=
  wf.edges.any (fun e => spec_operational_edge wf e && e.target == i)

/-- Start-node candidates exactly as the claim states them: any operational
(non-`model_config`) node with no incoming operational edge or of type
`input`, `trigger` or `webhook_trigger`, in declaration order. -/
def spec_start_candidates (wf : Workflow) : List String :=
  (wf.nodes.filter (fun n => n.type != "model_config"
    && (!(spec_has_incoming_operational_edge wf n.id)
        || n.type == "input" || n.type == "webhook_trigger" || n.type == "trigger"))).map
    (fun n => n.id)

/-- `adj[i]`: operational successors of a node, in edge-declaration order. -/
def adj_successors (wf : Workflow) (i : String) : List String :=
  (wf.edges.filter (fun e => operational_edge_src wf e && e.source == i)).map
    (fun e => e.target)

/-- Events the run pushes onto its log queue, one constructor per distinct
`log_and_store` call site of `execute_workflow_logic` (plus the final
`__END__` push of line 498). -/
inductive LogStep where
  | start
  | initError
  | executing (nodeId : String)
  | invalidNode (nodeId : String)
  | waitingForWebhook (nodeId : String)
  | webhookTriggered (nodeId : String)
  | webhookTimeout (nodeId : String)
  | finishedNode (nodeId : String) (ok : Bool)
  | terminal (status : String)
  | endSentinel
  deriving Repr, DecidableEq

/-- The `status` field each call site writes into its log entry. -/
def stepStatus : LogStep → String
  | .start => "Pending"
  | .initError => "Failed"
  | .executing _ => "Pending"
  | .invalidNode _ => "Failed"
  | .waitingForWebhook _ => "Waiting"
  | .webhookTriggered _ => "Triggered"
  | .webhookTimeout _ => "Failed"
  | .finishedNode _ ok => if ok then "Success" else "Failed"
  | .terminal s => s
  | .endSentinel => ""

/-- Environment of one run: the node executor (dispatching per node id; the
detailed `execute_node` model above is one instance), SSE-queue existence per
loop iteration (`run_id in stream_queues`), and the test-rendezvous outcome
per node id (`none` models the 300 s timeout expiring). -/
structure RunEnv where
  execNode : String → JValue → Except String JValue
  connected : Nat → Bool
  webhookData : String → Option JValue

/-- Mutable state of the main `while` loop of `execute_workflow_logic`:
the FIFO `exec_queue`, the `processed_nodes` set, the `steps` counter, the
emitted log events, the list of executor invocations (in order), the
`overall_success` / `execution_error_occurred` / `aborted_by_client` flags,
and the loop-iteration counter used by the `connected` oracle. -/
structure RunState where
  queue : List (String × JValue)
  processed : List String
  steps : Nat
  events : List LogStep
  executed : List String
  success : Bool
  errored : Bool
  aborted : Bool
  iter : Nat
  deriving Repr

/-- The main loop (lines 330-431). Each recursive call is one `while`
iteration; branches that `break` (client abort, invalid node, webhook
timeout, node failure) return the final state directly. The skip branch is
the cycle guard of line 337: a node already in `processed_nodes` is dropped
unless it is the start node. The success branch records the execution,
adds the node to `processed_nodes`, increments `steps` and enqueues the
operational successors with the node's output. -/
def runLoop (wf : Workflow) (env : RunEnv) (isTest : Bool) (startId : String) :
    Nat → RunState → RunState
  | 0, st => st
  | Nat.succ fuel, st =>
    match st.queue with
    | [] => st
    | (cid, cdata) :: rest =>
      if 100 ≤ st.steps then st
      else if st.errored = true then st
      else if env.connected st.iter = false then
        RunState.mk st.queue st.processed st.steps st.events st.executed
          false st.errored true st.iter
      else if cid ∈ st.processed ∧ cid ≠ startId then
        runLoop wf env isTest startId fuel
          (RunState.mk rest st.processed st.steps st.events st.executed
            st.success st.errored st.aborted (st.iter + 1))
      else
        match nodes_dict_find wf cid with
        | none =>
          RunState.mk rest st.processed st.steps
            (st.events ++ [LogStep.invalidNode cid]) st.executed false true st.aborted st.iter
        | some node =>
          if node.type = "model_config" then
            RunState.mk rest st.processed st.steps
              (st.events ++ [LogStep.invalidNode cid]) st.executed false true st.aborted st.iter
          else if isTest = true ∧ (node.type = "webhook_trigger" ∨ node.type = "webhook") then
            match env.webhookData cid with
            | none =>
              RunState.mk rest st.processed st.steps
                (st.events ++ [LogStep.executing cid, LogStep.waitingForWebhook cid,
                               LogStep.webhookTimeout cid])
                st.executed false true st.aborted st.iter
            | some d =>
              match env.execNode cid d with
              | .ok out =>
                runLoop wf env isTest startId fuel
                  (RunState.mk (rest ++ (adj_successors wf cid).map (fun t => (t, out)))
                    (st.processed ++ [cid]) (st.steps + 1)
                    (st.events ++ [LogStep.executing cid, LogStep.waitingForWebhook cid,
                                   LogStep.webhookTriggered cid, LogStep.finishedNode cid true])
                    (st.executed ++ [cid]) st.success st.errored st.aborted (st.iter + 1))
              | .error _ =>
                RunState.mk rest st.processed st.steps
                  (st.events ++ [LogStep.executing cid, LogStep.waitingForWebhook cid,
                                 LogStep.webhookTriggered cid, LogStep.finishedNode cid false])
                  (st.executed ++ [cid]) false true st.aborted st.iter
          else
            match env.execNode cid cdata with
            | .ok out =>
              runLoop wf env isTest startId fuel
                (RunState.mk (rest ++ (adj_successors wf cid).map (fun t => (t, out)))
                  (st.processed ++ [cid]) (st.steps + 1)
                  (st.events ++ [LogStep.executing cid, LogStep.finishedNode cid true])
                  (st.executed ++ [cid]) st.success st.errored st.aborted (st.iter + 1))
            | .error _ =>
              RunState.mk rest st.processed st.steps
                (st.events ++ [LogStep.executing cid, LogStep.finishedNode cid false])
                (st.executed ++ [cid]) false true st.aborted st.iter

/-- Iteration budget amply covering the loop: at most 100 executions, each
enqueuing at most `edges.length` successors, plus the initial entry and the
final skips. The trace theorems below hold for every budget; adequacy only
matters for evaluating concrete runs. -/
def run_fuel (wf : Workflow) : Nat := (wf.edges.length + 2) * 102

def initial_run_state (startId : String) (input : JValue) : RunState :=
  RunState.mk [(startId, input)] [] 0 [] [] true false false 0

/-- The loop phase of a run: `none` when start-node selection failed
(lines 315-318), otherwise the loop result starting from the first
candidate (line 320). -/
def workflowRun (wf : Workflow) (env : RunEnv) (isTest : Bool) (input : JValue) :
    Option RunState :=
  match start_node_candidates wf with
  | [] => none
  | startId :: _ =>
    some (runLoop wf env isTest startId (run_fuel wf) (initial_run_state startId input))

/-- Terminal status computed after the loop (lines 443-453). -/
def final_status (st : RunState) : String :=
  if st.aborted then "Aborted (Client Disconnected)"
  else if st.errored then "Finished with Errors"
  else if !st.success then "Failed (Generic)"
  else "Success"

/-- Full event stream of one run of `execute_workflow_logic`: the start log;
then either the `Initialization Error` log (no start candidate — the
terminal-status log of line 456 sits inside the `else` branch and is not
emitted on this path) or the loop's events followed by the terminal-status
log; and in every case the single final `__END__` push of line 498. -/
def execute_workflow_logic (wf : Workflow) (env : RunEnv) (isTest : Bool)
    (input : JValue) : List LogStep :=
  match workflowRun wf env isTest input with
  | none => [LogStep.start, LogStep.initError, LogStep.endSentinel]
  | some st =>
    LogStep.start :: (st.events ++ [LogStep.terminal (final_status st), LogStep.endSentinel])

/-- Node-executor invocations of a run, in order. -/
def workflow_executed_nodes (wf : Workflow) (env : RunEnv) (isTest : Bool)
    (input : JValue) : List String :=
  match workflowRun wf env isTest input with
  | none => []
  | some st => st.executed

/-! ## Concrete instances used by counterexamples and witnesses -/

/-- True when an optional stored value is a JSON list (a payload ring). -/
def is_list_value : Option JValue → Bool
  | some (.jarr _) => true
  | _ => false

/-- External world whose transport always answers 200 and whose code oracle
reports that `exec` completed without setting `result`. -/
def trivialWorld : ExternalWorld :=
  ExternalWorld.mk (.ok "hello") (.ok none) (fun _ => .ok 200) (fun _ => none) none

/-- External world whose transport refuses every request. -/
def failWorld : ExternalWorld :=
  ExternalWorld.mk (.ok "hello") (.ok none) (fun _ => .error "refused") (fun _ => none) none

/-- An `api_consumer` node with bearer authentication whose headers are
stored as a dict — the configuration under which the auth handling mutates
`node.data["headers"]` in place. -/
def bearerApiNode : Node :=
  Node.mk "N" "api_consumer" (0, 0)
    [("url", .jstr "http://example.com/q"), ("auth_type", .jstr "bearer"),
     ("bearer_token", .jstr "tok1"), ("headers", .jobj [("X-A", .jstr "1")])]

/-- Run environment: every executor echoes its input, the SSE queue never
disappears, no test webhook data arrives. -/
def passthroughEnv : RunEnv :=
  RunEnv.mk (fun _ v => .ok v) (fun _ => true) (fun _ => none)

def nodeInputA : Node := Node.mk "A" "input" (0, 0) []

def nodeDefaultB : Node := Node.mk "B" "default" (0, 0) []

/-- Workflow with the cycle A → B → A, where A is the start node. -/
def cycleWorkflow : Workflow :=
  Workflow.mk "w1" "cycle" [nodeInputA, nodeDefaultB]
    [Edge.mk "e1" "A" "B" none none, Edge.mk "e2" "B" "A" none none] false false

/-- Workflow whose only node is a `model_config` node: no start candidate. -/
def noStartWorkflow : Workflow :=
  Workflow.mk "w2" "mconly" [Node.mk "M" "model_config" (0, 0) []] [] false false

def httpActionNode : Node :=
  Node.mk "H" "http_action" (0, 0)
    [("url", .jstr "http://example.com/x"), ("method", .jstr "POST")]

def webhookActionNode : Node :=
  Node.mk "H2" "webhook_action" (0, 0) [("url", .jstr "http://example.com/y")]

def apiConsumerNode : Node :=
  Node.mk "K" "api_consumer" (0, 0)
    [("url", .jstr "http://example.com/z"), ("method", .jstr "POST")]

def plainNode : Node := Node.mk "D" "default" (0, 0) []

/-- Rendezvous state with one test run waiting on one webhook path. -/
def waitingState : RendezvousState :=
  RendezvousState.mk [("/api/webhooks/wh_w1_n1", "r1")] [("r1", ["n1"])] [] []

/-- A workflow submitted to the import endpoint with `is_active` set and
`tested` clear. -/
def importedActiveUntested : Workflow := Workflow.mk "w9" "imported" [] [] true false

/-- A previously stored version of `w9` whose node list differs. -/
def storedOldW9 : Workflow :=
  Workflow.mk "w9" "old" [Node.mk "X" "default" (0, 0) []] [] true true

/-- A stored payload map holding a one-element list for a segment, as the
register endpoint initialises and the tests manipulate it. -/
def ringBefore : List (String × JValue) := [("wh_w1_n1", .jarr [.jnum 1])]

/-! ## Helper lemmas -/

theorem beq_false_symm (k k2 : String) (h : (k2 == k) = false) : (k == k2) = false := by
  cases hkk : (k == k2)
  · rfl
  · rw [eq_of_beq hkk] at h; simp at h

theorem fieldsSet_cons_ne (a : String × JValue) (t : List (String × JValue)) (k : String)
    (v : JValue) (h : (a.1 == k) = false) :
    fieldsSet (a :: t) k v = a :: fieldsSet t k v := by
  by_cases h2 : t.any (fun p => p.1 == k) <;> simp [fieldsSet, h, h2]
  intro hak
  rw [hak] at h
  simp at h

theorem fieldsGet_cons_ne (a : String × JValue) (t : List (String × JValue)) (k : String)
    (h : (a.1 == k) = false) : fieldsGet (a :: t) k = fieldsGet t k := by
  simp [fieldsGet, List.find?, h]

theorem fieldsGet_fieldsSet_self (fs : List (String × JValue)) (k : String) (v : JValue) :
    fieldsGet (fieldsSet fs k v) k = some v := by
  induction fs with
  | nil => simp [fieldsSet, fieldsGet, List.find?]
  | cons a t ih =>
    by_cases h : a.1 == k
    · have ha : a.1 = k := by exact eq_of_beq h
      simp [fieldsSet, fieldsGet, List.find?, h, ha]
    · rw [fieldsSet_cons_ne a t k v (by simp [h]), fieldsGet_cons_ne a _ k (by simp [h])]
      exact ih

theorem find?_map_replace_ne (t : List (String × JValue)) (k k2 : String) (v : JValue)
    (h : (k2 == k) = false) :
    (t.map (fun p => if p.1 == k then (k, v) else p)).find? (fun p => p.1 == k2)
      = t.find? (fun p => p.1 == k2) := by
  induction t with
  | nil => simp
  | cons b t2 ih =>
    by_cases hb : b.1 == k
    · have hbk : b.1 = k := eq_of_beq hb
      have hbne : (b.1 == k2) = false := by rw [hbk]; exact beq_false_symm k k2 h
      have hkv : (((k, v) : String × JValue).1 == k2) = false := beq_false_symm k k2 h
      simp only [List.map_cons, hb, if_pos, List.find?, hbne, hkv]
      exact ih
    · simp only [List.map_cons, hb, Bool.false_eq_true, if_false]
      rw [List.find?, List.find?]
      cases hbq : (b.1 == k2)
      · exact ih
      · rfl

theorem fieldsGet_fieldsSet_ne (fs : List (String × JValue)) (k k2 : String) (v : JValue)
    (h : (k2 == k) = false) :
    fieldsGet (fieldsSet fs k v) k2 = fieldsGet fs k2 := by
  unfold fieldsSet
  by_cases hany : fs.any (fun p => p.1 == k)
  · simp only [hany, if_true]
    unfold fieldsGet
    rw [find?_map_replace_ne fs k k2 v h]
  · simp only [hany, Bool.false_eq_true, if_false]
    unfold fieldsGet
    rw [List.find?_append]
    have : ([((k, v) : String × JValue)].find? (fun p => p.1 == k2)) = none := by
      simp [List.find?, beq_false_symm k k2 h]
    rw [this]
    cases fs.find? (fun p => p.1 == k2) <;> rfl

theorem storeGet_storeSet_self (db : Store) (i : String) (w : Workflow) :
    storeGet (storeSet db i w) i = some w := by
  simp [storeGet, storeSet, List.find?]

theorem assocGetS_filter_ne_self (m : List (String × String)) (path : String) :
    assocGetS (m.filter (fun p => p.1 != path)) path = none := by
  have : (m.filter (fun p => p.1 != path)).find? (fun p => p.1 == path) = none := by
    rw [List.find?_eq_none]
    intro x hx
    have := (List.mem_filter.mp hx).2
    simp at this
    simp [this]
  simp [assocGetS, this]

/-! ## C10 — the import endpoint stores the workflow exactly as submitted -/

/-- C10: POST `/api/workflows/import_single` stores the submitted workflow
exactly as given, including the client-supplied `is_active` and `tested`
flags; unlike POST `/api/workflows` it never clears them when the nodes or
edges differ from the stored version, and it applies no
tested-before-activation gate, so the store can end up holding a workflow
with `is_active = true` and `tested = false`. -/
theorem import_single_stores_exactly :
    (∀ (db : Store) (wf : Workflow), wf.id ≠ "" →
      import_single_workflow db wf = .ok (storeSet db wf.id wf)) ∧
    (∀ (db : Store) (i : String) (wf : Workflow),
      storeGet (storeSet db i wf) i = some wf) ∧
    (∀ (db : Store) (wf old : Workflow), storeGet db wf.id = some old →
      nodeListBeq old.nodes wf.nodes = false →
      storeGet (save_workflow db wf) wf.id = some (withFlags wf false false)) ∧
    (∃ (db : Store) (wf : Workflow) (st : Store),
      import_single_workflow db wf = .ok st ∧ storeGet st wf.id = some wf ∧
      wf.is_active = true ∧ wf.tested = false) := by
  refine ⟨?_, ?_, ?_, ?_⟩
  · intro db wf h
    simp [import_single_workflow, h]
  · intro db i wf
    exact storeGet_storeSet_self db i wf
  · intro db wf old h hne
    simp only [save_workflow, h, hne, Bool.not_false, Bool.true_or, if_true]
    exact storeGet_storeSet_self db wf.id (withFlags wf false false)
  · refine ⟨[], importedActiveUntested, storeSet [] "w9" importedActiveUntested, rfl, ?_, rfl, rfl⟩
    exact storeGet_storeSet_self [] "w9" importedActiveUntested

/-- C10 witness: the conjuncts of `import_single_stores_exactly` instantiated
at a concrete store holding an older, differing version of the workflow. -/
theorem import_single_stores_exactly_witness :
    import_single_workflow [("w9", storedOldW9)] importedActiveUntested
      = .ok (storeSet [("w9", storedOldW9)] "w9" importedActiveUntested) ∧
    storeGet (save_workflow [("w9", storedOldW9)] importedActiveUntested) "w9"
      = some (withFlags importedActiveUntested false false) ∧
    importedActiveUntested.is_active = true ∧ importedActiveUntested.tested = false :=
  ⟨import_single_stores_exactly.1 [("w9", storedOldW9)] importedActiveUntested (by decide),
   import_single_stores_exactly.2.2.1 [("w9", storedOldW9)] importedActiveUntested storedOldW9
     rfl rfl,
   rfl, rfl⟩

/-! ## C4 — webhook payload storage -/

/-- C4 counterexample: the claim says an inbound request appends an entry to
`webhook_payloads[segment]` and the stored collection is a ring keeping the
last 100 entries. Starting from a segment holding a one-element list, the
handler's assignment (`routes/webhooks.py`, lines 154-159) replaces the list
with a single `\x7bpayload, timestamp, method\x7d` object: nothing is appended
(appending would keep both entries, as 2 is at most 100), the prior entry is
lost, and the stored value is not a list at all. -/
theorem webhook_payload_not_appended :
    fieldsGet (handle_webhook_callback_store ringBefore "wh_w1_n1" (.jnum 2) "t1" "post")
        "wh_w1_n1" = some (webhook_payload_entry (.jnum 2) "t1" "post") ∧
    is_list_value (fieldsGet
        (handle_webhook_callback_store ringBefore "wh_w1_n1" (.jnum 2) "t1" "post")
        "wh_w1_n1") = false ∧
    stored_entry_count (fieldsGet ringBefore "wh_w1_n1") = 1 ∧
    stored_entry_count (fieldsGet
        (handle_webhook_callback_store ringBefore "wh_w1_n1" (.jnum 2) "t1" "post")
        "wh_w1_n1") = 1 :=
  ⟨rfl, rfl, rfl, rfl⟩

/-- C4 as amended: every inbound request to `/api/webhooks/\x7bsegment\x7d`
overwrites `webhook_payloads[segment]` with the single latest
`\x7bpayload, timestamp, method\x7d` entry (other segments untouched); only the
most recent payload is retained, so the stored collection per segment is
trivially bounded by one entry, not an append-ring of 100. -/
theorem webhook_payload_store_overwrites :
    ∀ (payloads : List (String × JValue)) (seg : String) (p : JValue) (t m : String),
      fieldsGet (handle_webhook_callback_store payloads seg p t m) seg
        = some (webhook_payload_entry p t m) ∧
      stored_entry_count (fieldsGet (handle_webhook_callback_store payloads seg p t m) seg)
        ≤ 1 ∧
      ∀ seg2, (seg2 == seg) = false →
        fieldsGet (handle_webhook_callback_store payloads seg p t m) seg2
          = fieldsGet payloads seg2 := by
  intro payloads seg p t m
  refine ⟨?_, ?_, ?_⟩
  · exact fieldsGet_fieldsSet_self payloads seg (webhook_payload_entry p t m)
  · rw [handle_webhook_callback_store,
      fieldsGet_fieldsSet_self payloads seg (webhook_payload_entry p t m)]
    rfl
  · intro seg2 h2
    exact fieldsGet_fieldsSet_ne payloads seg seg2 (webhook_payload_entry p t m) h2

/-- C4 witness: the amended statement evaluated on the concrete one-element
ring, with the frame conjunct discharged at a distinct segment. -/
theorem webhook_payload_store_overwrites_witness :
    fieldsGet (handle_webhook_callback_store ringBefore "wh_w1_n1" (.jnum 7) "t2" "get")
        "wh_w1_n1" = some (webhook_payload_entry (.jnum 7) "t2" "get") ∧
    fieldsGet (handle_webhook_callback_store ringBefore "wh_w1_n1" (.jnum 7) "t2" "get")
        "other" = fieldsGet ringBefore "other" :=
  ⟨(webhook_payload_store_overwrites ringBefore "wh_w1_n1" (.jnum 7) "t2" "get").1,
   (webhook_payload_store_overwrites ringBefore "wh_w1_n1" (.jnum 7) "t2" "get").2.2
     "other" rfl⟩

/-! ## C3 — rendezvous signalling order and one-shot delivery -/

/-- C3 counterexample: the claim says the waiter entry is removed from
`active_waiters` before the rendezvous slot is signalled. On a state with
one waiting run, `signal_webhook_data_for_test` succeeds but its observable
action trace sets the event first and removes the waiter second
(`workflow_service.py`: `event.set()` on line 214, the `del` on lines
218-219), so no removal precedes the signal. -/
theorem signal_sets_event_before_removal :
    (signal_webhook_data_for_test waitingState "/api/webhooks/wh_w1_n1" "n1" .jnull).2.1
      = true ∧
    (signal_webhook_data_for_test waitingState "/api/webhooks/wh_w1_n1" "n1" .jnull).2.2
      = [SignalAction.setEvent "r1" "n1",
         SignalAction.removeWaiter "/api/webhooks/wh_w1_n1"] ∧
    removal_precedes_signal
      (signal_webhook_data_for_test waitingState "/api/webhooks/wh_w1_n1" "n1" .jnull).2.2
      = false :=
  ⟨rfl, rfl, rfl⟩

/-- C3 as amended: the entry is removed immediately after the event is set —
in the opposite order to the claim, but with no suspension point in between,
so the removal still happens before the waiting scheduler can resume; hence
a waiting test run is signalled by the first inbound request to its path,
and any subsequent request to the same path finds no waiter, signals
nothing and leaves the rendezvous state unchanged. -/
theorem signal_first_request_only :
    ∀ (st : RendezvousState) (path nodeId : String) (data : JValue) (runId found : String),
      assocGetS st.activeWaiters path = some runId →
      find_matching_node_id (registered_events st runId) nodeId = some found →
      (signal_webhook_data_for_test st path nodeId data).2.1 = true ∧
      (signal_webhook_data_for_test st path nodeId data).2.2
        = [SignalAction.setEvent runId found, SignalAction.removeWaiter path] ∧
      assocGetS (signal_webhook_data_for_test st path nodeId data).1.activeWaiters path
        = none ∧
      (runId, found) ∈ (signal_webhook_data_for_test st path nodeId data).1.eventSet ∧
      (∀ (nodeId2 : String) (data2 : JValue),
        signal_webhook_data_for_test (signal_webhook_data_for_test st path nodeId data).1
            path nodeId2 data2
          = ((signal_webhook_data_for_test st path nodeId data).1, false, [])) := by
  intro st path nodeId data runId found h1 h2
  have hres : signal_webhook_data_for_test st path nodeId data
      = (RendezvousState.mk (st.activeWaiters.filter (fun p => p.1 != path)) st.testEvents
          (st.eventSet ++ [(runId, found)]) (st.testData ++ [(runId, found, data)]),
         true, [SignalAction.setEvent runId found, SignalAction.removeWaiter path]) := by
    simp only [signal_webhook_data_for_test, h1, h2]
  refine ⟨by rw [hres], by rw [hres], ?_, ?_, ?_⟩
  · rw [hres]
    exact assocGetS_filter_ne_self st.activeWaiters path
  · rw [hres]
    simp
  · intro nodeId2 data2
    have hnone : assocGetS
        (signal_webhook_data_for_test st path nodeId data).1.activeWaiters path = none := by
      rw [hres]
      exact assocGetS_filter_ne_self st.activeWaiters path
    rw [signal_webhook_data_for_test, hnone]

/-- C3 witness: the amended statement evaluated on the concrete waiting
state, confirming the second request is a no-op. -/
theorem signal_first_request_only_witness :
    (signal_webhook_data_for_test waitingState "/api/webhooks/wh_w1_n1" "n1" .jnull).2.1
      = true ∧
    signal_webhook_data_for_test
        (signal_webhook_data_for_test waitingState "/api/webhooks/wh_w1_n1" "n1" .jnull).1
        "/api/webhooks/wh_w1_n1" "n1" (.jnum 5)
      = ((signal_webhook_data_for_test waitingState "/api/webhooks/wh_w1_n1" "n1" .jnull).1,
         false, []) :=
  ⟨(signal_first_request_only waitingState "/api/webhooks/wh_w1_n1" "n1" .jnull "r1" "n1"
      rfl rfl).1,
   (signal_first_request_only waitingState "/api/webhooks/wh_w1_n1" "n1" .jnull "r1" "n1"
      rfl rfl).2.2.2.2 "n1" (.jnum 5)⟩

/-! ## C7 — api_consumer retry policy -/

theorem api_retry_attempts_le (policy : String) (respond : Nat → Except String Nat)
    (maxRetries : Nat) :
    ∀ (fuel attempt : Nat) (delays : List Nat),
      (api_retry_go policy respond maxRetries fuel attempt delays).attempts ≤ attempt + fuel := by
  intro fuel
  induction fuel with
  | zero => intro attempt delays; simp [api_retry_go]
  | succ f ih =>
    intro attempt delays
    rw [api_retry_go]
    cases h : respond attempt with
    | ok c =>
      show attempt + 1 ≤ attempt + (f + 1)
      omega
    | error e =>
      dsimp only
      by_cases hge : attempt ≥ maxRetries
      · rw [if_pos hge]
        show attempt + 1 ≤ attempt + (f + 1)
        omega
      · rw [if_neg hge]
        calc (api_retry_go policy respond maxRetries f (attempt + 1)
                (delays ++ [retry_delay_ms policy attempt])).attempts
            ≤ (attempt + 1) + f := ih (attempt + 1) _
          _ ≤ attempt + (f + 1) := by omega

/-- C7: for an `api_consumer` request, policy `none` always makes exactly one
attempt; with `simple` and a transport that fails every attempt, 4 attempts
are made (1 + 3 retries) with a fixed 1000 ms delay between them; with
`exponential`, 6 attempts (1 + 5 retries) with delays 500·2ⁿ ms, that is
500, 1000, 2000, 4000, 8000 ms; exhausting all attempts raises the
transport `ConnectionError` naming the last error; and no policy ever makes
more than `max_retries + 1` attempts. -/
theorem api_consumer_retry_policy :
    (∀ respond : Nat → Except String Nat, (api_consumer_request "none" respond).2.1 = 1) ∧
    (∀ (respond : Nat → Except String Nat) (err : Nat → String),
      (∀ n, respond n = .error (err n)) →
      api_consumer_request "simple" respond
        = (.error ("Failed to connect to API: " ++ err 3), 4, [1000, 1000, 1000])) ∧
    (∀ (respond : Nat → Except String Nat) (err : Nat → String),
      (∀ n, respond n = .error (err n)) →
      api_consumer_request "exponential" respond
        = (.error ("Failed to connect to API: " ++ err 5), 6,
           [500, 1000, 2000, 4000, 8000])) ∧
    (∀ (policy : String) (respond : Nat → Except String Nat),
      (api_consumer_request policy respond).2.1 ≤ max_retries_for policy + 1) := by
  have hmrn : max_retries_for "none" = 0 := rfl
  have hmrs : max_retries_for "simple" = 3 := rfl
  have hmre : max_retries_for "exponential" = 5 := rfl
  have hds : ∀ n, retry_delay_ms "simple" n = 1000 := fun n => rfl
  refine ⟨?_, ?_, ?_, ?_⟩
  · intro respond
    rw [api_consumer_request, hmrn]
    cases h : respond 0 with
    | ok c => simp [api_retry_go, h]
    | error e => simp [api_retry_go, h]
  · intro respond err h
    rw [api_consumer_request, hmrs]
    simp [api_retry_go, h 0, h 1, h 2, h 3, hds]
  · intro respond err h
    rw [api_consumer_request, hmre]
    have hd0 : retry_delay_ms "exponential" 0 = 500 := rfl
    have hd1 : retry_delay_ms "exponential" 1 = 1000 := rfl
    have hd2 : retry_delay_ms "exponential" 2 = 2000 := rfl
    have hd3 : retry_delay_ms "exponential" 3 = 4000 := rfl
    have hd4 : retry_delay_ms "exponential" 4 = 8000 := rfl
    simp [api_retry_go, h 0, h 1, h 2, h 3, h 4, h 5, hd0, hd1, hd2, hd3, hd4]
  · intro policy respond
    have hb := api_retry_attempts_le policy respond (max_retries_for policy)
      (max_retries_for policy + 1) 0 []
    rw [api_consumer_request]
    cases hres : (api_retry_go policy respond (max_retries_for policy)
        (max_retries_for policy + 1) 0 []).response with
    | none =>
      simp only [hres]
      omega
    | some c =>
      simp only [hres]
      omega

/-- C7 witness: the all-failing transport, evaluated for both retrying
policies and for `none`. -/
theorem api_consumer_retry_policy_witness :
    (api_consumer_request "none" (fun _ => .error "connection refused")).2.1 = 1 ∧
    api_consumer_request "simple" (fun _ => .error "connection refused")
      = (.error ("Failed to connect to API: " ++ "connection refused"), 4,
         [1000, 1000, 1000]) ∧
    api_consumer_request "exponential" (fun _ => .error "connection refused")
      = (.error ("Failed to connect to API: " ++ "connection refused"), 6,
         [500, 1000, 2000, 4000, 8000]) :=
  ⟨api_consumer_retry_policy.1 (fun _ => .error "connection refused"),
   api_consumer_retry_policy.2.1 (fun _ => .error "connection refused")
     (fun _ => "connection refused") (fun _ => rfl),
   api_consumer_retry_policy.2.2.1 (fun _ => .error "connection refused")
     (fun _ => "connection refused") (fun _ => rfl)⟩

/-! ## C1 — the code-node executor used during runs -/

/-- C1 counterexample: the claim says a `code` node executed during a run
invokes the Sandbox and captures an object of shape
`\x7bstatus, result, error?\x7d`. The run-path executor `execute_code_node`
runs the code in-process with `exec` and, on success, builds an envelope
whose keys are `status`, `output` and `details` — there is no `result`
field (and no temp file, stdin hand-off or timeout on this path; those
belong to `test_code_node_in_docker`, reached only from
POST `/node/code/test`). -/
theorem code_node_run_envelope_shape :
    (execute_code_node "result = input_data" (.jstr "hi") (.ok (some (.jstr "hi")))).map
        (fun v => (v.hasField "status", v.hasField "result", v.hasField "output"))
      = .ok (true, false, true) := rfl

/-- C1 as amended: during workflow runs a `code` node executes in-process via
`exec` over the namespace holding `input_data` and `result` — empty code or
an unset `result` pass the input through, an exception raises
`ValueError("Code execution failed: ...")`, and success yields the
`\x7bstatus: "success", output, details\x7d` envelope; the described
sandbox behaviour (JSON on standard input, `\x7bstatus, result, error?\x7d` on
standard output, 60 s default timeout converting to a timeout-specific
error) belongs to `test_code_node_in_docker`, which only the code-test
endpoint calls. -/
theorem code_node_run_path_and_sandbox :
    (∀ (input : JValue) (ex : Except String (Option JValue)),
      execute_code_node "" input ex = .ok input) ∧
    (∀ (code : String) (input : JValue), (code == "") = false →
      execute_code_node code input (.ok none) = .ok input) ∧
    (∀ (code : String) (input v : JValue), (code == "") = false →
      execute_code_node code input (.ok (some v))
        = .ok (.jobj [("status", .jstr "success"), ("output", v),
            ("details", .jobj [("code_executed", .jstr (code.take 100))])])) ∧
    (∀ (code : String) (input : JValue) (e : String), (code == "") = false →
      execute_code_node code input (.error e)
        = .error ("Code execution failed: " ++ e)) ∧
    (∀ t : Nat, test_code_node_in_docker false .timeoutExpired t
        = .jobj [("status", .jstr "error"),
                 ("error", .jstr ("Code execution timed out after "
                                   ++ toString t ++ " seconds"))]) ∧
    code_test_default_timeout = 60 ∧
    (∀ (v : JValue) (s : String) (t : Nat),
      test_code_node_in_docker false (.completed 0 (some v) s) t = v) := by
  refine ⟨?_, ?_, ?_, ?_, ?_, rfl, ?_⟩
  · intro input ex
    simp [execute_code_node]
  · intro code input h
    simp [execute_code_node, h]
  · intro code input v h
    simp [execute_code_node, h]
  · intro code input e h
    simp [execute_code_node, h]
  · intro t
    simp [test_code_node_in_docker]
  · intro v s t
    simp [test_code_node_in_docker]

/-- C1 witness: the amended statement at a concrete snippet that sets
`result`, and at the sandbox timeout with the default 60 s budget. -/
theorem code_node_run_path_and_sandbox_witness :
    execute_code_node "result = 1 + 1" .jnull (.ok (some (.jnum 2)))
      = .ok (.jobj [("status", .jstr "success"), ("output", .jnum 2),
          ("details", .jobj [("code_executed", .jstr (("result = 1 + 1").take 100))])]) ∧
    test_code_node_in_docker false .timeoutExpired code_test_default_timeout
      = .jobj [("status", .jstr "error"),
               ("error", .jstr ("Code execution timed out after "
                                 ++ toString code_test_default_timeout ++ " seconds"))] :=
  ⟨code_node_run_path_and_sandbox.2.2.1 "result = 1 + 1" .jnull (.jnum 2) rfl,
   code_node_run_path_and_sandbox.2.2.2.2.1 code_test_default_timeout⟩

/-! ## C2 — http_action nodes are never dispatched to the HTTP executor -/

/-- C2: the claim says every `http_action` (aka `webhook_action`) or
`api_consumer` node performs the configured outbound HTTP request. The
dispatch of `execute_node` (`node_execution.py`, lines 56-68) has no branch
for `http_action` or `webhook_action`: such nodes hit the unknown-type
`else` and pass their input through with no request, even though
`execute_webhook_action_node` — defined a few lines above and never called
by the dispatch — would perform exactly the configured request.
`api_consumer` nodes do perform theirs. This contradicts the code's own
executor (present but unreachable) and the legacy monolith, which routed
`webhook_action` to it. -/
theorem http_action_not_dispatched :
    (execute_node trivialWorld httpActionNode (.jstr "payload")).result
      = .ok (.jstr "payload") ∧
    (execute_node trivialWorld httpActionNode (.jstr "payload")).effects = [] ∧
    (execute_node trivialWorld webhookActionNode (.jstr "payload")).result
      = .ok (.jstr "payload") ∧
    (execute_node trivialWorld webhookActionNode (.jstr "payload")).effects = [] ∧
    execute_webhook_action_node trivialWorld httpActionNode (.jstr "payload")
      = .ok (.jobj [("status", .jstr "success"), ("status_code", .jnum 200)],
             [HttpRequestEffect.mk "POST" "http://example.com/x" []]) ∧
    (execute_node trivialWorld apiConsumerNode (.jstr "payload")).effects
      = [HttpRequestEffect.mk "POST" "http://example.com/z" []] :=
  ⟨rfl, rfl, rfl, rfl, rfl, rfl⟩

/-! ## C9 — executors and the graph -/

/-- C9 counterexample: the claim says executing a node leaves the workflow's
nodes — including each node's data map — unchanged. Two refutations:
`execute_node` (lines 79-80) writes `status = "completed"` and `output`
into the executed node's own `data` dict on success; and for an
`api_consumer` node with bearer auth and dict-valued headers, the auth
handling (line 334) writes into the aliased headers dict before the
request, so `node.data["headers"]` changes even though the transport
fails and the node raises. -/
theorem execute_node_mutates_node_data :
    fieldsGet (execute_node trivialWorld plainNode (.jstr "v")).node.data "status"
      = some (.jstr "completed") ∧
    fieldsGet plainNode.data "status" = none ∧
    fieldsGet (execute_node trivialWorld plainNode (.jstr "v")).node.data "output"
      = some (.jstr "v") ∧
    (execute_node failWorld bearerApiNode (.jstr "v")).result
      = .error ("Failed to connect to API: " ++ "refused") ∧
    fieldsGet bearerApiNode.data "headers" = some (.jobj [("X-A", .jstr "1")]) ∧
    fieldsGet (execute_node failWorld bearerApiNode (.jstr "v")).node.data "headers"
      = some (.jobj [("X-A", .jstr "1"),
                     ("Authorization", .jstr ("Bearer " ++ "tok1"))]) :=
  ⟨rfl, rfl, rfl, rfl, rfl, rfl⟩

/-- C9 as amended: node executors never touch the workflow's edge list or
any other node, and leave the executed node's `id`, `type` and `position`
intact; executors for types other than `api_consumer` leave the data map
alone before the success writes; on success `execute_node` sets the keys
`status` (to `"completed"`) and `output` (to the produced output) on top of
the data as the executor left it, preserving every other key of that map;
on an exception those two writes are absent and the node carries exactly
the executor's own mutation — for an `api_consumer` node the auth handling
writes into the dict aliased by `node.data["headers"]` before the request:
nothing when no `auth_type` is configured, the bearer `Authorization`
header when `auth_type` is `bearer`, present even when the node raises. -/
theorem execute_node_touches_only_own_data :
    ∀ (world : ExternalWorld) (node : Node) (input : JValue),
      ((execute_node world node input).node.id = node.id ∧
       (execute_node world node input).node.type = node.type ∧
       (execute_node world node input).node.position = node.position) ∧
      (∀ e, (execute_node world node input).result = .error e →
        (execute_node world node input).node.data
          = (execute_node_step world node input).2) ∧
      (node.type ≠ "api_consumer" →
        (execute_node_step world node input).2 = node.data) ∧
      (∀ out, (execute_node world node input).result = .ok out →
        (execute_node world node input).node.data
          = fieldsSet (fieldsSet (execute_node_step world node input).2 "status"
              (.jstr "completed")) "output" out) ∧
      (∀ (out : JValue) (k : String), (execute_node world node input).result = .ok out →
        (k == "status") = false → (k == "output") = false →
        fieldsGet (execute_node world node input).node.data k
          = fieldsGet (execute_node_step world node input).2 k) ∧
      (stringField node.data "auth_type" = none →
        (execute_api_consumer_node world node input).data = node.data) ∧
      (∀ (fs : List (String × JValue)) (tok : String),
        fieldsGet node.data "headers" = some (.jobj fs) →
        stringField node.data "auth_type" = some "bearer" →
        stringField node.data "bearer_token" = some tok →
        (execute_api_consumer_node world node input).data
          = fieldsSet node.data "headers"
              (.jobj (fieldsSet fs "Authorization" (.jstr ("Bearer " ++ tok))))) := by
  intro world node input
  refine ⟨?_, ?_, ?_, ?_, ?_, ?_, ?_⟩
  · cases hstep : (execute_node_step world node input).1 with
    | error e => refine ⟨?_, ?_, ?_⟩ <;> simp [execute_node, hstep]
    | ok pr =>
      obtain ⟨out0, effs⟩ := pr
      refine ⟨?_, ?_, ?_⟩ <;> simp [execute_node, hstep]
  · intro e he
    cases hstep : (execute_node_step world node input).1 with
    | error e2 => simp [execute_node, hstep]
    | ok pr =>
      obtain ⟨out0, effs⟩ := pr
      simp only [execute_node, hstep] at he
      simp at he
  · intro hne
    have h3 : (node.type == "api_consumer") = false := beq_eq_false_iff_ne.mpr hne
    by_cases h1 : (node.type == "llm") = true
    · simp [execute_node_step, h1]
    · by_cases h2 : (node.type == "code") = true
      · simp [execute_node_step, h1, h2]
      · simp [execute_node_step, h1, h2, h3]
  · intro out hout
    cases hstep : (execute_node_step world node input).1 with
    | error e =>
      simp only [execute_node, hstep] at hout
      simp at hout
    | ok pr =>
      obtain ⟨out0, effs⟩ := pr
      simp only [execute_node, hstep] at hout
      simp at hout
      simp [execute_node, hstep, hout]
  · intro out k hout hk1 hk2
    cases hstep : (execute_node_step world node input).1 with
    | error e =>
      simp only [execute_node, hstep] at hout
      simp at hout
    | ok pr =>
      obtain ⟨out0, effs⟩ := pr
      simp only [execute_node, hstep]
      rw [fieldsGet_fieldsSet_ne _ "output" k _ hk2,
          fieldsGet_fieldsSet_ne _ "status" k _ hk1]
  · intro hna
    unfold execute_api_consumer_node
    rw [hna]
    simp
  · intro fs tok hh hat htok
    unfold execute_api_consumer_node
    rw [hh, hat, htok]
    simp

/-- C9 witness: the amended statement evaluated at the concrete pass-through
node (frame checked on an unrelated key) and at the bearer-auth
`api_consumer` node whose aliased headers dict is mutated in place. -/
theorem execute_node_touches_only_own_data_witness :
    (execute_node trivialWorld plainNode (.jstr "v")).node.data
      = fieldsSet (fieldsSet (execute_node_step trivialWorld plainNode (.jstr "v")).2
          "status" (.jstr "completed")) "output" (.jstr "v") ∧
    (execute_node_step trivialWorld plainNode (.jstr "v")).2 = plainNode.data ∧
    fieldsGet (execute_node trivialWorld plainNode (.jstr "v")).node.data "label"
      = fieldsGet (execute_node_step trivialWorld plainNode (.jstr "v")).2 "label" ∧
    (execute_api_consumer_node failWorld bearerApiNode (.jstr "v")).data
      = fieldsSet bearerApiNode.data "headers"
          (.jobj (fieldsSet [("X-A", .jstr "1")] "Authorization"
            (.jstr ("Bearer " ++ "tok1")))) :=
  ⟨(execute_node_touches_only_own_data trivialWorld plainNode (.jstr "v")).2.2.2.1
     (.jstr "v") rfl,
   (execute_node_touches_only_own_data trivialWorld plainNode (.jstr "v")).2.2.1
     (by decide),
   (execute_node_touches_only_own_data trivialWorld plainNode (.jstr "v")).2.2.2.2.1
     (.jstr "v") "label" rfl rfl rfl,
   (execute_node_touches_only_own_data failWorld bearerApiNode (.jstr "v")).2.2.2.2.2.2
     [("X-A", .jstr "1")] "tok1" rfl rfl rfl⟩

/-! ## Scheduler lemmas -/

theorem runLoop_count_end (wf : Workflow) (env : RunEnv) (isTest : Bool) (startId : String) :
    ∀ (fuel : Nat) (st : RunState),
      (runLoop wf env isTest startId fuel st).events.count LogStep.endSentinel
        = st.events.count LogStep.endSentinel := by
  intro fuel
  induction fuel with
  | zero => intro st; rfl
  | succ f ih =>
    intro st
    rw [runLoop]
    split
    · rfl
    · split
      · rfl
      · split
        · rfl
        · split
          · rfl
          · split
            · rw [ih]
            · split
              · simp [List.count_append]
              · split
                · simp [List.count_append]
                · split
                  · split
                    · simp [List.count_append]
                    · split
                      · rw [ih]
                        simp [List.count_append]
                      · simp [List.count_append]
                  · split
                    · rw [ih]
                      simp [List.count_append]
                    · simp [List.count_append]

theorem runLoop_processed_mono (wf : Workflow) (env : RunEnv) (isTest : Bool)
    (startId : String) :
    ∀ (fuel : Nat) (st : RunState) (i : String), i ∈ st.processed →
      i ∈ (runLoop wf env isTest startId fuel st).processed := by
  intro fuel
  induction fuel with
  | zero => intro st i h; exact h
  | succ f ih =>
    intro st i h
    rw [runLoop]
    split
    · exact h
    · split
      · exact h
      · split
        · exact h
        · split
          · exact h
          · split
            · exact ih _ i h
            · split
              · exact h
              · split
                · exact h
                · split
                  · split
                    · exact h
                    · split
                      · exact ih _ i (List.mem_append_left _ h)
                      · exact h
                  · split
                    · exact ih _ i (List.mem_append_left _ h)
                    · exact h


theorem runLoop_executed_frozen (wf : Workflow) (env : RunEnv) (isTest : Bool)
    (startId : String) :
    ∀ (fuel : Nat) (st : RunState) (i : String), i ≠ startId → i ∈ st.processed →
      (runLoop wf env isTest startId fuel st).executed.count i
        = st.executed.count i := by
  intro fuel
  induction fuel with
  | zero => intro st i hne hmem; rfl
  | succ f ih =>
    intro st i hne hmem
    rw [runLoop]
    rcases hq : st.queue with _ | ⟨⟨cid, cdata⟩, rest⟩
    · rfl
    · dsimp only
      by_cases h1 : 100 ≤ st.steps
      · rw [if_pos h1]
      · rw [if_neg h1]
        by_cases h2 : st.errored = true
        · rw [if_pos h2]
        · rw [if_neg h2]
          by_cases h3 : env.connected st.iter = false
          · rw [if_pos h3]
          · rw [if_neg h3]
            by_cases h4 : cid ∈ st.processed ∧ cid ≠ startId
            · rw [if_pos h4]
              exact ih _ i hne hmem
            · rw [if_neg h4]
              have hcid : (cid == i) = false := by
                refine beq_eq_false_iff_ne.mpr ?_
                intro hc
                cases hc
                exact h4 ⟨hmem, hne⟩
              cases hnd : nodes_dict_find wf cid with
              | none => rfl
              | some node =>
                dsimp only
                by_cases h5 : node.type = "model_config"
                · rw [if_pos h5]
                · rw [if_neg h5]
                  by_cases h6 : isTest = true
                      ∧ (node.type = "webhook_trigger" ∨ node.type = "webhook")
                  · rw [if_pos h6]
                    cases hw : env.webhookData cid with
                    | none => rfl
                    | some d =>
                      dsimp only
                      cases hx : env.execNode cid d with
                      | ok out =>
                        rw [ih _ i hne (List.mem_append_left _ hmem)]
                        simp [List.count_append, List.count_cons, hcid]
                      | error e =>
                        simp [List.count_append, List.count_cons, hcid]
                  · rw [if_neg h6]
                    cases hx : env.execNode cid cdata with
                    | ok out =>
                      rw [ih _ i hne (List.mem_append_left _ hmem)]
                      simp [List.count_append, List.count_cons, hcid]
                    | error e =>
                      simp [List.count_append, List.count_cons, hcid]

theorem runLoop_executed_once (wf : Workflow) (env : RunEnv) (isTest : Bool)
    (startId : String) :
    ∀ (fuel : Nat) (st : RunState) (i : String), i ≠ startId → i ∉ st.processed →
      st.executed.count i = 0 →
      (runLoop wf env isTest startId fuel st).executed.count i ≤ 1 := by
  intro fuel
  induction fuel with
  | zero => intro st i hne hnot hz; simp [runLoop, hz]
  | succ f ih =>
    intro st i hne hnot hz
    rw [runLoop]
    rcases hq : st.queue with _ | ⟨⟨cid, cdata⟩, rest⟩
    · simp [hz]
    · dsimp only
      by_cases h1 : 100 ≤ st.steps
      · rw [if_pos h1]; simp [hz]
      · rw [if_neg h1]
        by_cases h2 : st.errored = true
        · rw [if_pos h2]; simp [hz]
        · rw [if_neg h2]
          by_cases h3 : env.connected st.iter = false
          · rw [if_pos h3]; simp [hz]
          · rw [if_neg h3]
            by_cases h4 : cid ∈ st.processed ∧ cid ≠ startId
            · rw [if_pos h4]
              exact ih _ i hne hnot hz
            · rw [if_neg h4]
              cases hnd : nodes_dict_find wf cid with
              | none => simp [hz]
              | some node =>
                dsimp only
                by_cases h5 : node.type = "model_config"
                · rw [if_pos h5]; simp [hz]
                · rw [if_neg h5]
                  by_cases hcid : cid = i
                  · cases hcid
                    have hmem2 : i ∈ st.processed ++ [i] :=
                      List.mem_append_right _ (List.mem_singleton_self i)
                    by_cases h6 : isTest = true
                        ∧ (node.type = "webhook_trigger" ∨ node.type = "webhook")
                    · rw [if_pos h6]
                      cases hw : env.webhookData i with
                      | none => simp [hz]
                      | some d =>
                        try dsimp only
                        cases hx : env.execNode i d with
                        | ok out =>
                          rw [runLoop_executed_frozen wf env isTest startId f _ i hne hmem2]
                          simp [List.count_append, List.count_cons, hz]
                        | error e =>
                          simp [List.count_append, List.count_cons, hz]
                    · rw [if_neg h6]
                      cases hx : env.execNode i cdata with
                      | ok out =>
                        rw [runLoop_executed_frozen wf env isTest startId f _ i hne hmem2]
                        simp [List.count_append, List.count_cons, hz]
                      | error e =>
                        simp [List.count_append, List.count_cons, hz]
                  · have hcb : (cid == i) = false := beq_eq_false_iff_ne.mpr hcid
                    have hnot2 : i ∉ st.processed ++ [cid] := by
                      intro hm
                      rcases List.mem_append.mp hm with hm1 | hm2
                      · exact hnot hm1
                      · exact hcid (List.mem_singleton.mp hm2).symm
                    have hz2 : ∀ l : List String, l.count i = 0 →
                        (l ++ [cid]).count i = 0 := by
                      intro l hl
                      simp [List.count_append, List.count_cons, hcb, hl]
                    by_cases h6 : isTest = true
                        ∧ (node.type = "webhook_trigger" ∨ node.type = "webhook")
                    · rw [if_pos h6]
                      cases hw : env.webhookData cid with
                      | none => simp [hz]
                      | some d =>
                        dsimp only
                        cases hx : env.execNode cid d with
                        | ok out =>
                          exact ih _ i hne hnot2 (hz2 _ hz)
                        | error e =>
                          simp [List.count_append, List.count_cons, hcb, hz]
                    · rw [if_neg h6]
                      cases hx : env.execNode cid cdata with
                      | ok out =>
                        exact ih _ i hne hnot2 (hz2 _ hz)
                      | error e =>
                        simp [List.count_append, List.count_cons, hcb, hz]

theorem runLoop_steps_le (wf : Workflow) (env : RunEnv) (isTest : Bool) (startId : String) :
    ∀ (fuel : Nat) (st : RunState), st.steps ≤ 100 →
      (runLoop wf env isTest startId fuel st).steps ≤ 100 := by
  intro fuel
  induction fuel with
  | zero => intro st h; exact h
  | succ f ih =>
    intro st h
    rw [runLoop]
    rcases hq : st.queue with _ | ⟨⟨cid, cdata⟩, rest⟩
    · exact h
    · dsimp only
      by_cases h1 : 100 ≤ st.steps
      · rw [if_pos h1]; exact h
      · rw [if_neg h1]
        by_cases h2 : st.errored = true
        · rw [if_pos h2]; exact h
        · rw [if_neg h2]
          by_cases h3 : env.connected st.iter = false
          · rw [if_pos h3]; exact h
          · rw [if_neg h3]
            by_cases h4 : cid ∈ st.processed ∧ cid ≠ startId
            · rw [if_pos h4]; exact ih _ h
            · rw [if_neg h4]
              cases hnd : nodes_dict_find wf cid with
              | none => exact h
              | some node =>
                dsimp only
                by_cases h5 : node.type = "model_config"
                · rw [if_pos h5]; exact h
                · rw [if_neg h5]
                  by_cases h6 : isTest = true
                      ∧ (node.type = "webhook_trigger" ∨ node.type = "webhook")
                  · rw [if_pos h6]
                    cases hw : env.webhookData cid with
                    | none => exact h
                    | some d =>
                      dsimp only
                      cases hx : env.execNode cid d with
                      | ok out =>
                        refine ih _ ?_
                        show st.steps + 1 ≤ 100
                        omega
                      | error e => exact h
                  · rw [if_neg h6]
                    cases hx : env.execNode cid cdata with
                    | ok out =>
                      refine ih _ ?_
                      show st.steps + 1 ≤ 100
                      omega
                    | error e => exact h

theorem find_last_eq_find_first (nodes : List Node) (i : String)
    (h : (nodes.map Node.id).Nodup) :
    nodes.reverse.find? (fun n => n.id == i) = nodes.find? (fun n => n.id == i) := by
  induction nodes with
  | nil => rfl
  | cons a t ih =>
    rw [List.map_cons] at h
    have hparts := List.nodup_cons.mp h
    have h1 : a.id ∉ t.map Node.id := hparts.1
    have h2 : (t.map Node.id).Nodup := hparts.2
    rw [List.reverse_cons, List.find?_append]
    by_cases ha : (a.id == i) = true
    · have hid : a.id = i := eq_of_beq ha
      have ht : t.find? (fun n => n.id == i) = none := by
        rw [List.find?_eq_none]
        intro x hx hxi
        exact h1 (List.mem_map.mpr ⟨x, hx, by rw [eq_of_beq hxi, hid]⟩)
      have htr : t.reverse.find? (fun n => n.id == i) = none := by
        rw [List.find?_eq_none] at ht ⊢
        intro x hx
        exact ht x (List.mem_reverse.mp hx)
      rw [htr]
      simp [List.find?, ha, ht]
    · have ha' : (a.id == i) = false := by
        cases hb : (a.id == i)
        · rfl
        · exact absurd hb ha
      rw [ih h2]
      simp [List.find?, ha']

theorem operational_edge_spec_eq (wf : Workflow)
    (h : (wf.nodes.map Node.id).Nodup) (e : Edge) :
    operational_edge_src wf e = spec_operational_edge wf e := by
  unfold operational_edge_src spec_operational_edge nodes_dict_find spec_find_node
  rw [find_last_eq_find_first wf.nodes e.source h,
      find_last_eq_find_first wf.nodes e.target h]
  cases hs : wf.nodes.find? (fun n => n.id == e.source) with
  | none => rfl
  | some s =>
    cases ht : wf.nodes.find? (fun n => n.id == e.target) with
    | none => rfl
    | some t =>
      dsimp only
      by_cases hsm : s.type = "model_config"
      · simp [hsm]
      · by_cases htm : t.type = "model_config"
        · simp [hsm, htm]
        · have hmem : s ∈ wf.nodes := List.mem_of_find?_eq_some hs
          have hps : (s.id == e.source) = true := by simpa using List.find?_some hs
          have hsid : s.id = e.source := eq_of_beq hps
          have hin : e.source ∈ operational_node_ids wf := by
            unfold operational_node_ids
            refine List.mem_map.mpr ⟨s, List.mem_filter.mpr ⟨hmem, ?_⟩, hsid⟩
            simp [hsm]
          have hcont : (operational_node_ids wf).contains e.source = true :=
            List.elem_iff.mpr hin
          simp [hsm, htm, hcont]
          exact hin

theorem is_target_spec_eq (wf : Workflow) (h : (wf.nodes.map Node.id).Nodup)
    (i : String) :
    is_target_in_operational_graph wf i = spec_has_incoming_operational_edge wf i := by
  unfold is_target_in_operational_graph spec_has_incoming_operational_edge
  have hfun : (fun e => operational_edge_src wf e && e.target == i)
      = (fun e => spec_operational_edge wf e && e.target == i) :=
    funext fun e => by rw [operational_edge_spec_eq wf h e]
  rw [hfun]

theorem start_candidates_spec_eq (wf : Workflow)
    (h : (wf.nodes.map Node.id).Nodup) :
    start_node_candidates wf = spec_start_candidates wf := by
  unfold start_node_candidates spec_start_candidates
  have hfun : (fun n : Node => n.type != "model_config"
        && (!(is_target_in_operational_graph wf n.id)
            || n.type == "input" || n.type == "webhook_trigger" || n.type == "trigger"))
      = (fun n : Node => n.type != "model_config"
        && (!(spec_has_incoming_operational_edge wf n.id)
            || n.type == "input" || n.type == "webhook_trigger" || n.type == "trigger")) :=
    funext fun n => by rw [is_target_spec_eq wf h n.id]
  rw [hfun]

/-! ## C8 — the __END__ sentinel -/

/-- C8: for every run — any workflow, any executor outcomes, any client
disconnect timing, any test rendezvous outcome, production or test —
exactly one `__END__` sentinel is published on the run's log stream, and
it is the strict final event of the stream. -/
theorem run_stream_single_end :
    ∀ (wf : Workflow) (env : RunEnv) (isTest : Bool) (input : JValue),
      (execute_workflow_logic wf env isTest input).count LogStep.endSentinel = 1 ∧
      (execute_workflow_logic wf env isTest input).getLast?
        = some LogStep.endSentinel := by
  intro wf env isTest input
  cases hc : start_node_candidates wf with
  | nil =>
    have htr : execute_workflow_logic wf env isTest input
        = [LogStep.start, LogStep.initError, LogStep.endSentinel] := by
      unfold execute_workflow_logic workflowRun
      rw [hc]
    rw [htr]
    exact ⟨rfl, rfl⟩
  | cons sId tl =>
    have hrun : workflowRun wf env isTest input
        = some (runLoop wf env isTest sId (run_fuel wf) (initial_run_state sId input)) := by
      unfold workflowRun
      rw [hc]
    set st := runLoop wf env isTest sId (run_fuel wf) (initial_run_state sId input) with hst
    have htr : execute_workflow_logic wf env isTest input
        = LogStep.start :: (st.events
            ++ [LogStep.terminal (final_status st), LogStep.endSentinel]) := by
      unfold execute_workflow_logic
      rw [hrun]
    have hev : st.events.count LogStep.endSentinel = 0 := by
      rw [hst, runLoop_count_end]
      rfl
    constructor
    · rw [htr]
      simp [List.count_cons, List.count_append, hev]
    · rw [htr]
      have hsplit : LogStep.start :: (st.events
            ++ [LogStep.terminal (final_status st), LogStep.endSentinel])
          = (LogStep.start :: (st.events ++ [LogStep.terminal (final_status st)]))
            ++ [LogStep.endSentinel] := by
        simp
      rw [hsplit]
      exact List.getLast?_concat _

/-! ## C5 — bounded execution under cycles -/

/-- C5 counterexample: the claim says each node id is executed at most once
per run, the start node being allowed only its single execution at entry.
In the workflow A → B → A (A of type `input`, hence the start node), the
run executes A, then B, then — because the cycle guard of line 337 exempts
the start node on every revisit, not only at entry — A again: the executor
invocation list is `[A, B, A]` and A is executed twice. -/
theorem start_node_reexecuted_in_cycle :
    start_node_candidates cycleWorkflow = ["A"] ∧
    workflow_executed_nodes cycleWorkflow passthroughEnv false .jnull = ["A", "B", "A"] ∧
    (workflow_executed_nodes cycleWorkflow passthroughEnv false .jnull).count "A" = 2 :=
  ⟨rfl, rfl, rfl⟩

/-- C5 as amended: execution is bounded even on cyclic graphs — every
non-start node id is executed at most once per run (a repeated queue entry
is skipped), and at most 100 steps are ever processed; the start node,
however, is exempt from the processed-set check on every revisit, so a
cycle back to the start re-executes it, bounded only by the step cap. -/
theorem scheduler_bounded_execution :
    ∀ (wf : Workflow) (env : RunEnv) (isTest : Bool) (input : JValue)
      (st : RunState) (sId : String) (tl : List String),
      start_node_candidates wf = sId :: tl →
      workflowRun wf env isTest input = some st →
      (∀ i, i ≠ sId → st.executed.count i ≤ 1) ∧ st.steps ≤ 100 := by
  intro wf env isTest input st sId tl hc hrun
  have hst : runLoop wf env isTest sId (run_fuel wf) (initial_run_state sId input) = st := by
    simp only [workflowRun, hc, Option.some.injEq] at hrun
    exact hrun
  subst hst
  constructor
  · intro i hne
    apply runLoop_executed_once
    · exact hne
    · exact List.not_mem_nil i
    · rfl
  · apply runLoop_steps_le
    show (0 : Nat) ≤ 100
    omega

/-- C5 witness: the amended statement on the concrete cyclic workflow — the
non-start node B executes at most once and the step cap holds. -/
theorem scheduler_bounded_execution_witness :
    ((runLoop cycleWorkflow passthroughEnv false "A" (run_fuel cycleWorkflow)
        (initial_run_state "A" .jnull)).executed.count "B" ≤ 1) ∧
    (runLoop cycleWorkflow passthroughEnv false "A" (run_fuel cycleWorkflow)
        (initial_run_state "A" .jnull)).steps ≤ 100 :=
  ⟨(scheduler_bounded_execution cycleWorkflow passthroughEnv false .jnull
      (runLoop cycleWorkflow passthroughEnv false "A" (run_fuel cycleWorkflow)
        (initial_run_state "A" .jnull)) "A" [] rfl rfl).1 "B" (by decide),
   (scheduler_bounded_execution cycleWorkflow passthroughEnv false .jnull
      (runLoop cycleWorkflow passthroughEnv false "A" (run_fuel cycleWorkflow)
        (initial_run_state "A" .jnull)) "A" [] rfl rfl).2⟩

/-! ## C6 — start-node selection -/

/-- C6: start-node selection picks any operational (non-`model_config`) node
with no incoming operational edge or of type `input`, `trigger` or
`webhook_trigger`; under the workflow invariant that node ids are unique,
the source's computation (via `nodes_dict`, the `adj` keys and the
operational-target set) coincides with that specification reading; with
several candidates the first in node-declaration order is chosen as the
loop's start node; with zero candidates the run logs the
`Initialization Error` event (whose status is `Failed`) and ends with no
success terminal. -/
theorem start_node_selection :
    ∀ (wf : Workflow) (env : RunEnv) (isTest : Bool) (input : JValue),
      ((wf.nodes.map Node.id).Nodup →
        start_node_candidates wf = spec_start_candidates wf) ∧
      (∀ (sId : String) (tl : List String), start_node_candidates wf = sId :: tl →
        workflowRun wf env isTest input
          = some (runLoop wf env isTest sId (run_fuel wf)
              (initial_run_state sId input))) ∧
      (start_node_candidates wf = [] →
        execute_workflow_logic wf env isTest input
          = [LogStep.start, LogStep.initError, LogStep.endSentinel]
        ∧ stepStatus LogStep.initError = "Failed") := by
  intro wf env isTest input
  refine ⟨fun h => start_candidates_spec_eq wf h, ?_, ?_⟩
  · intro sId tl hc
    unfold workflowRun
    rw [hc]
  · intro hc
    constructor
    · unfold execute_workflow_logic workflowRun
      rw [hc]
    · rfl

/-- C6 witness: the refinement discharged on the cyclic workflow (whose node
ids are distinct), and the zero-candidate behaviour on the workflow holding
only a `model_config` node. -/
theorem start_node_selection_witness :
    start_node_candidates cycleWorkflow = spec_start_candidates cycleWorkflow ∧
    execute_workflow_logic noStartWorkflow passthroughEnv false .jnull
      = [LogStep.start, LogStep.initError, LogStep.endSentinel] :=
  ⟨(start_node_selection cycleWorkflow passthroughEnv false .jnull).1 (by decide),
   ((start_node_selection noStartWorkflow passthroughEnv false .jnull).2.2 rfl).1⟩
